import Mathlib

/-!
Verification development for the product price searcher application
(`streamlit_app.py`).  The Python source is shallowly embedded below:

* a model of Python values produced by `json.loads` (`JVal`) together with a
  model of the `json.loads` decoder itself (`json_loads`);
* a model of the specific regular-expression search performed by
  `analyze_product_prices` (`json_search`);
* the extraction pipeline `analyze_product_prices`, the per-URL analysis loop
  (`run_analysis`), the URL discovery client (`discover_product_urls`), the
  search-history append logic (`record_run` / `run_history`), the price-basis
  display derivation (`price_basis_display`), the URL curation operations
  (`add_url`, `checkbox_removal_pass`, `set_included`, `active_urls`,
  `active_urls_on_analyze`) and the startup sequence (`startup_script`).

External network calls (the OpenAI client) are modelled as explicit inputs:
each embedded operation receives the outcome of the service call (either a
transport failure or the raw response payload) as an argument.
-/

namespace ProductPriceSearcher

/-! ### Python values decoded from JSON

`json.loads` yields Python `dict` / `list` / `str` / `int` / `float` /
`bool` / `None` values; the decoder also accepts the non-standard constants
`NaN`, `Infinity` and `-Infinity`.  A float is modelled exactly as the
decimal `mantissa × 10 ^ exp10` written in the source text (binary64
rounding is not modelled; every claim below compares only a decimal literal
to itself, where this identification is faithful). -/
inductive JVal where
  | jnull
  | jbool (b : Bool)
  | jint (n : Int)
  | jfloat (mantissa : Int) (exp10 : Int)
  | jnan
  | jinf (negative : Bool)
  | jstr (s : String)
  | jarr (elems : List JVal)
  | jobj (fields : List (String × JVal))

/-- Key lookup in a decoded object (Python `d[k]` / `k in d`).  Objects built
by `json_loads` have unique keys (duplicates collapse, last value wins), so
first-match lookup is exact. -/
def lookupKey : List (String × JVal) → String → Option JVal
  | [], _ => none
  | (k, v) :: rest, key => if k = key then some v else lookupKey rest key

/-- Insertion with `dict` semantics: an existing key keeps its position and
takes the new value; a new key is appended. -/
def objInsert : List (String × JVal) → String → JVal → List (String × JVal)
  | [], key, v => [(key, v)]
  | (k, w) :: rest, key, v =>
    if k = key then (k, v) :: rest else (k, w) :: objInsert rest key v

/-! ### The `json.loads` model -/

/-- JSON whitespace (the only characters `json.decoder` skips:
space, tab, newline, carriage return). -/
def jsonWs (c : Char) : Bool := [' ', '\t', '\n', '\r'].contains c

def skipJWs (cs : List Char) : List Char :=
  match cs with
  | [] => []
  | c :: rest => if jsonWs c then skipJWs rest else cs

/-- An ASCII decimal digit (code points 48–57). -/
def isDigitCh (c : Char) : Bool := 48 ≤ c.toNat && c.toNat ≤ 57

/-- The maximal digit prefix together with what follows it. -/
def splitDigits (cs : List Char) : List Char × List Char :=
  match cs with
  | d :: more =>
    if isDigitCh d then
      let tailSplit := splitDigits more
      (d :: tailSplit.1, tailSplit.2)
    else ([], cs)
  | [] => ([], [])

/-- The number denoted by a digit list, most significant first. -/
def digitsToNat (ds : List Char) : Nat :=
  match ds with
  | [] => 0
  | d :: more => digitsToNat more + (d.toNat - 48) * 10 ^ more.length

/-- The value of one hexadecimal digit (0–9, a–f, A–F). -/
def hexDigitVal (c : Char) : Option Nat :=
  let n := c.toNat
  if 48 ≤ n ∧ n ≤ 57 then some (n - 48)
  else if 97 ≤ n ∧ n ≤ 102 then some (n - 87)
  else if 65 ≤ n ∧ n ≤ 70 then some (n - 55)
  else none

/-- Four hexadecimal digits read as one number. -/
def hexQuad (a b c d : Char) : Option Nat :=
  match hexDigitVal a, hexDigitVal b, hexDigitVal c, hexDigitVal d with
  | some x, some y, some z, some w => some (x * 4096 + y * 256 + z * 16 + w)
  | _, _, _, _ => none

/-- The single-character JSON escapes (`json.decoder.BACKSLASH`). -/
def simpleEscape (e : Char) : Option Char :=
  if e = '"' ∨ e = '\\' ∨ e = '/' then some e
  else if e = 'b' then some (Char.ofNat 0x08)
  else if e = 't' then some (Char.ofNat 0x09)
  else if e = 'n' then some (Char.ofNat 0x0A)
  else if e = 'f' then some (Char.ofNat 0x0C)
  else if e = 'r' then some (Char.ofNat 0x0D)
  else none

/-- Body of a JSON string after the opening quote (`py_scanstring`, strict
mode: an unescaped control character is an error).  A high surrogate escape
immediately followed by a low surrogate escape is combined into one code
point, as CPython does; a lone surrogate — kept as-is by CPython — is mapped
through `Char.ofNat` (no claim exercises that corner). -/
def scanJString (fuel : Nat) (acc : List Char) (cs : List Char) :
    Option (String × List Char) :=
  match fuel with
  | 0 => none
  | f + 1 =>
    match cs with
    | '"' :: rest => some (⟨acc.reverse⟩, rest)
    | '\\' :: 'u' :: a :: b :: c :: d :: tail =>
      match hexQuad a b c d with
      | none => none
      | some n =>
        match tail with
        | '\\' :: 'u' :: a2 :: b2 :: c2 :: d2 :: rest2 =>
          if 0xD800 ≤ n && n < 0xDC00 then
            match hexQuad a2 b2 c2 d2 with
            | some m =>
              if 0xDC00 ≤ m && m < 0xE000 then
                scanJString f
                  (Char.ofNat (0x10000 + (n - 0xD800) * 0x400 + (m - 0xDC00)) :: acc) rest2
              else
                -- not a low surrogate: the high surrogate stands alone and the
                -- second escape is decoded on the next round
                scanJString f (Char.ofNat n :: acc) tail
            | none => none
          else scanJString f (Char.ofNat n :: acc) tail
        | _ => scanJString f (Char.ofNat n :: acc) tail
    | '\\' :: e :: rest =>
      match simpleEscape e with
      | some ch => scanJString f (ch :: acc) rest
      | none => none
    | c :: rest => if c.toNat < 0x20 then none else scanJString f (c :: acc) rest
    | [] => none

/-- A JSON number (CPython `NUMBER_RE`): `-? (0 | [1-9][0-9]*) (\.[0-9]+)?
([eE][-+]?[0-9]+)?`.  Without a fraction or exponent the result is a Python
`int`, otherwise a `float`. -/
def scanJNumber (cs : List Char) : Option (JVal × List Char) :=
  let neg : Bool := match cs with
    | '-' :: _ => true
    | _ => false
  let cs1 := if neg then cs.drop 1 else cs
  let intPart : Option (List Char × List Char) := match cs1 with
    | '0' :: r => some (['0'], r)
    | c :: r =>
      if isDigitCh c && c != '0' then
        let (ds, r') := splitDigits r
        some (c :: ds, r')
      else none
    | [] => none
  match intPart with
  | none => none
  | some (ids, cs2) =>
    let fracPart : Option (List Char × List Char) := match cs2 with
      | '.' :: r =>
        let (ds, r') := splitDigits r
        if ds.isEmpty then none else some (ds, r')
      | _ => none
    let (fds, cs3) := match fracPart with
      | some (ds, r) => (ds, r)
      | none => ([], cs2)
    let expPart : Option (Int × List Char) := match cs3 with
      | 'e' :: r | 'E' :: r =>
        let signSplit : Int × List Char :=
          match r with
          | '+' :: after => (1, after)
          | '-' :: after => (-1, after)
          | _ => (1, r)
        match splitDigits signSplit.2 with
        | ([], _) => none
        | (eds, r2) => some (signSplit.1 * (digitsToNat eds : Int), r2)
      | _ => none
    let (ex, cs4) := match expPart with
      | some (e, r) => (some e, r)
      | none => (none, cs3)
    let sign : Int := if neg then -1 else 1
    if fds.isEmpty ∧ ex = none then
      some (.jint (sign * (digitsToNat ids : Int)), cs4)
    else
      let mant : Int := sign * (digitsToNat (ids ++ fds) : Int)
      let scale : Int := (ex.getD 0) - (fds.length : Int)
      some (.jfloat mant scale, cs4)

mutual

/-- One JSON value starting at `cs` (leading whitespace allowed), mirroring
`json.scanner.py_make_scanner`: literals are matched by exact character
comparison, objects and arrays recurse.  `fuel` only guarantees totality;
`json_loads` supplies enough for any input. -/
def scanJVal (fuel : Nat) (cs : List Char) : Option (JVal × List Char) :=
  match fuel with
  | 0 => none
  | f + 1 =>
    match skipJWs cs with
    | '{' :: r =>
      match skipJWs r with
      | '}' :: r2 => some (.jobj [], r2)
      | r2 => scanJMembers f r2 []
    | '[' :: r =>
      match skipJWs r with
      | ']' :: r2 => some (.jarr [], r2)
      | r2 => scanJElems f r2 []
    | '"' :: r =>
      match scanJString (r.length + 1) [] r with
      | some (s, r2) => some (.jstr s, r2)
      | none => none
    | 't' :: 'r' :: 'u' :: 'e' :: r => some (.jbool true, r)
    | 'f' :: 'a' :: 'l' :: 's' :: 'e' :: r => some (.jbool false, r)
    | 'n' :: 'u' :: 'l' :: 'l' :: r => some (.jnull, r)
    | 'N' :: 'a' :: 'N' :: r => some (.jnan, r)
    | 'I' :: 'n' :: 'f' :: 'i' :: 'n' :: 'i' :: 't' :: 'y' :: r => some (.jinf false, r)
    | '-' :: 'I' :: 'n' :: 'f' :: 'i' :: 'n' :: 'i' :: 't' :: 'y' :: r =>
      some (.jinf true, r)
    | cs2 => scanJNumber cs2

/-- Members of a non-empty object, entered just past `{` and any whitespace.
Each member is a string key, `:`, a value; members are comma-separated and a
trailing comma is an error (after `,` a key is required). -/
def scanJMembers (fuel : Nat) (cs : List Char) (acc : List (String × JVal)) :
    Option (JVal × List Char) :=
  match fuel with
  | 0 => none
  | f + 1 =>
    match cs with
    | '"' :: r =>
      match scanJString (r.length + 1) [] r with
      | none => none
      | some (key, r1) =>
        match skipJWs r1 with
        | ':' :: r2 =>
          match scanJVal f r2 with
          | none => none
          | some (v, r3) =>
            let acc2 := objInsert acc key v
            match skipJWs r3 with
            | ',' :: r4 => scanJMembers f (skipJWs r4) acc2
            | '}' :: r4 => some (.jobj acc2, r4)
            | _ => none
        | _ => none
    | _ => none

/-- Elements of a non-empty array, entered just past `[` and any whitespace. -/
def scanJElems (fuel : Nat) (cs : List Char) (acc : List JVal) :
    Option (JVal × List Char) :=
  match fuel with
  | 0 => none
  | f + 1 =>
    match scanJVal f cs with
    | none => none
    | some (v, r1) =>
      match skipJWs r1 with
      | ',' :: r2 => scanJElems f r2 (acc ++ [v])
      | ']' :: r2 => some (.jarr (acc ++ [v]), r2)
      | _ => none

end

/-- Model of `json.loads`: decode one value, then require only whitespace to
follow (`Extra data` otherwise).  The fuel bound `2 * length + 2` exceeds the
longest possible chain of scanner steps on the input, so it is never the
reason for a failure. -/
def json_loads (s : String) : Except String JVal :=
  match scanJVal (2 * s.length + 2) s.data with
  | none => .error "Expecting value"
  | some (v, rest) =>
    match skipJWs rest with
    | [] => .ok v
    | _ => .error "Extra data"

/-! ### The response-text regular-expression search

`analyze_product_prices` runs

  `re.search(r'(\[\s*{.*}\s*\]|\{\s*"products"\s*:\s*\[.*\]\s*\})', text, re.DOTALL)`

and keeps `group(0)`.  Python semantics modelled here: the leftmost starting
position wins; at a given position the first alternative is preferred; `.`
matches every character (DOTALL); `.*` is greedy with backtracking, so it
takes the longest extent whose continuation (`}\s*\]` resp. `\]\s*\}`)
matches; `\s` is the ASCII whitespace class (the pattern's occurrences are
only ever adjacent to `[`, `]`, `{`, `}`, `:`, none of which is whitespace,
so `\s*` reduces to a maximal-whitespace skip). -/
def reWs (c : Char) : Bool :=
  c = ' ' || c = '\t' || c = '\n' || c = '\r' || c = '\x0b' || c = '\x0c'

/-- Split off the maximal `\s*` prefix. -/
def spanWs : List Char → List Char × List Char
  | c :: cs =>
    if reWs c then
      let (ws, r) := spanWs cs
      (c :: ws, r)
    else ([], c :: cs)
  | [] => ([], [])

/-- Greedy `.* c1 \s* c2` (DOTALL): the longest split of the input as
`dots ++ c1 :: ws ++ c2 :: rest` with `ws` all whitespace; returns the
consumed characters (`dots ++ c1 :: ws ++ [c2]`) and the remainder. -/
def greedyTail (c1 c2 : Char) : List Char → Option (List Char × List Char)
  | [] => none
  | c :: cs =>
    match greedyTail c1 c2 cs with
    | some (m, r) => some (c :: m, r)
    | none =>
      if c = c1 then
        let (ws, rest) := spanWs cs
        match rest with
        | c' :: r => if c' = c2 then some (c :: ws ++ [c2], r) else none
        | [] => none
      else none

/-- First alternative `\[\s*{.*}\s*\]` anchored at the current position. -/
def matchArrAlt (cs : List Char) : Option (List Char) :=
  match cs with
  | '[' :: r1 =>
    let (ws1, r2) := spanWs r1
    match r2 with
    | '{' :: r3 =>
      match greedyTail '}' ']' r3 with
      | some (m, _) => some ('[' :: ws1 ++ '{' :: m)
      | none => none
    | _ => none
  | _ => none

/-- Second alternative `\{\s*"products"\s*:\s*\[.*\]\s*\}` anchored at the
current position. -/
def matchProductsAlt (cs : List Char) : Option (List Char) :=
  match cs with
  | '{' :: r1 =>
    let (ws1, r2) := spanWs r1
    match r2 with
    | '"' :: 'p' :: 'r' :: 'o' :: 'd' :: 'u' :: 'c' :: 't' :: 's' :: '"' :: r3 =>
      let (ws2, r4) := spanWs r3
      match r4 with
      | ':' :: r5 =>
        let (ws3, r6) := spanWs r5
        match r6 with
        | '[' :: r7 =>
          match greedyTail ']' '}' r7 with
          | some (m, _) =>
            some ('{' :: ws1 ++ '"' :: 'p' :: 'r' :: 'o' :: 'd' :: 'u' :: 'c' :: 't' :: 's'
              :: '"' :: ws2 ++ ':' :: ws3 ++ '[' :: m)
          | none => none
        | _ => none
      | _ => none
    | _ => none
  | _ => none

/-- `re.search`: scan starting positions left to right, try the first then
the second alternative at each, return the matched substring (`group(0)`). -/
def reSearch : List Char → Option (List Char)
  | [] => none
  | c :: rest =>
    match matchArrAlt (c :: rest) with
    | some m => some m
    | none =>
      match matchProductsAlt (c :: rest) with
      | some m => some m
      | none => reSearch rest

def json_search (t : String) : Option String :=
  (reSearch t.data).map fun m => ⟨m⟩

/-! ### The extraction client (`analyze_product_prices`, lines 193–270)

The two OpenAI calls are external; each embedded operation takes the call's
outcome as an argument: `.error` for a raised transport/auth exception,
`.ok text` for a returned message content.  `Notice` records which
user-facing message the function emits on the side. -/

inductive Notice where
  | noNotice
  | warningShown (msg : String)
  | errorShown (msg : String)

/-- Whether a `st.warning(...)` was emitted. -/
def Notice.isWarning : Notice → Bool
  | .warningShown _ => true
  | _ => false

/-- The inner `try` block of `analyze_product_prices` (lines 243–263): regex
search, `json.loads` of the match or of the whole text, unwrap of a
`products` key, and the final list check.  A raised decoding error is the
`Except.error` case. -/
def parse_products_attempt (response_text : String) : Except String (List JVal) :=
  match
    (match json_search response_text with
     | some json_str => json_loads json_str
     | none => json_loads response_text) with
  | .error e => .error e
  | .ok products_data =>
    let products :=
      match products_data with
      | .jobj fields =>
        match lookupKey fields "products" with
        | some v => v
        | none => .jobj fields
      | other => other
    match products with
    | .jarr ps => .ok ps
    | _ => .ok []

/-- Steps 1–2 of the parsing: the decode attempt applied to a response text
(the regex match when found, otherwise the whole text).  Named separately so
that theorems can state on which branch of the decode each behaviour
occurs; `parse_products_attempt` computes the same decode inline. -/
def decode_response (t : String) : Except String JVal :=
  match json_search t with
  | some sub => json_loads sub
  | none => json_loads t

/-- `analyze_product_prices` (lines 193–270): on a transport failure the
outer `except` shows `st.error` and returns `[]`; on a response, the inner
`except` turns any decoding error into `st.warning` plus `[]`. -/
def analyze_product_prices (serviceResult : Except String String) :
    List JVal × Notice :=
  match serviceResult with
  | .error e => ([], .errorShown ("API request failed: " ++ e))
  | .ok response_text =>
    match parse_products_attempt response_text with
    | .ok products => (products, .noNotice)
    | .error e => ([], .warningShown ("Could not parse products from URL: " ++ e))

/-- Step 3 of the spec's §4.4 parsing policy: if the parsed value is an
object with a `products` key use that key's value, otherwise keep the value
itself. -/
def select_products (v : JVal) : JVal :=
  match v with
  | .jobj fs =>
    match lookupKey fs "products" with
    | some arr => arr
    | none => .jobj fs
  | w => w

/-- Whether a decoded value is a JSON array. -/
def isArrVal : JVal → Bool
  | .jarr _ => true
  | _ => false

/-- The ProductRecord shape of the spec's §3 data model: a record with named
(all optional) fields, i.e. a decoded JSON object. -/
def is_record_shape : JVal → Bool
  | .jobj _ => true
  | _ => false

/-- The field names present on a decoded object ([] on non-objects). -/
def fieldKeys : JVal → List String
  | .jobj fs => fs.map Prod.fst
  | _ => []

/-- Modelled from the spec's words (§4.4 parsing policy, steps 1–4), for
comparison with the code's `parse_products_attempt`:
1. search the raw response text for the first substring matching either a
   top-level JSON array of objects or a JSON object with a `products` key
   whose value is an array (the best-effort pattern of §9, `json_search`);
2. if found, parse that substring as JSON, otherwise parse the entire text;
3. if the parsed value is an object with a `products` key use that key's
   array, and if it is itself an array use it directly (`select_products`);
4. if the final value is not an array, or a parse step raised a decoding
   error, the extraction yields an empty sequence. -/
def spec_extract (t : String) : List JVal :=
  let found := json_search t
  let parsed :=
    match found with
    | some sub => json_loads sub
    | none => json_loads t
  match parsed with
  | .error _ => []
  | .ok v =>
    match select_products v with
    | .jarr ps => ps
    | _ => []

/-! ### The per-URL analysis loop (lines 348–404)

`svc` is the environment: the outcome of the extraction call for each URL. -/

/-- The `for i, url in enumerate(active_urls)` loop body (lines 365–382):
`all_products.extend(products)` when `products` is non-empty. -/
def run_analysis_loop (svc : String → Except String String)
    (all_products : List JVal) : List String → List JVal
  | [] => all_products
  | url :: rest =>
    let products := (analyze_product_prices (svc url)).1
    run_analysis_loop svc
      (if products.isEmpty then all_products else all_products ++ products) rest

/-- The aggregate of one analysis run, starting from `all_products = []`. -/
def run_analysis (svc : String → Except String String)
    (active_urls : List String) : List JVal :=
  run_analysis_loop svc [] active_urls

/-! ### The URL discovery client (`discover_product_urls`, lines 97–140) -/

/-- The structured-output schema `class URLs(BaseModel): urls: list[str]`. -/
structure URLs where
  urls : List String
deriving DecidableEq

/-- `discover_product_urls`: the parsed service result is returned exactly
as received (`return response.output_parsed.urls`); any raised exception is
converted to `st.error` plus an empty list. -/
def discover_product_urls (serviceResult : Except String URLs) :
    List String × Notice :=
  match serviceResult with
  | .ok response => (response.urls, .noNotice)
  | .error e => ([], .errorShown ("Error discovering URLs: " ++ e))

/-! ### Search history (lines 386–404) -/

/-- One entry of `st.session_state.search_history`.  The timestamp is the
run's clock reading (the code stores `time.strftime("%Y-%m-%d %H:%M:%S")` of
it; formatting a non-decreasing clock gives non-decreasing strings, so the
clock value itself is kept). -/
structure HistoryEntry where
  timestamp : Nat
  category : String
  product_name : String
  tech_spec : String
  price_calc_objective : String
  results : List JVal

/-- The inputs of one completed analysis run. -/
structure RunData where
  now : Nat
  category : String
  product_name : String
  tech_spec : String
  price_calc_objective : String
  all_products : List JVal

def entryOf (r : RunData) : HistoryEntry :=
  ⟨r.now, r.category, r.product_name, r.tech_spec, r.price_calc_objective,
    r.all_products⟩

/-- Lines 386–404: a non-empty aggregate is appended to the history with the
current timestamp; an empty aggregate shows `st.error("No products found
matching your specifications.")` and records nothing. -/
def record_run (history : List HistoryEntry) (r : RunData) :
    List HistoryEntry × Notice :=
  if r.all_products.isEmpty then
    (history, .errorShown "No products found matching your specifications.")
  else (history ++ [entryOf r], .noNotice)

/-- The history after a sequence of analysis runs. -/
def run_history (history : List HistoryEntry) : List RunData → List HistoryEntry
  | [] => history
  | r :: rs => run_history (record_run history r).1 rs

/-! ### Price-basis display derivation (`display_results`, lines 287–300) -/

/-- Python `str()` applied to a decoded JSON value, as interpolated by the
f-string `f"/{product['unit_type']}"`.  Strings, ints, bools and `None` are
exact; the float, infinity and container renderings are simplified stand-ins
for CPython's repr algorithm (no claim inspects those renderings — every
claim's `unit_type` is a string). -/
def pyStr : JVal → String
  | .jstr s => s
  | .jint n => toString n
  | .jbool b => cond b "True" "False"
  | .jnull => "None"
  | .jnan => "nan"
  | .jinf neg => cond neg "-inf" "inf"
  | .jfloat m e => toString m ++ "e" ++ toString e
  | .jarr _ => "[...]"
  | .jobj _ => "\x7b...\x7d"

/-- Lines 287–300 (and their duplicates at 314–328, 421–434, 448–462): given
the selected `price_calc_objective` and one product record, the per-basis
price shown, if any, together with its unit suffix.  `none` means no
per-basis price is rendered.  The block runs only when the objective is not
`"none"`; the field read is `price_per_<objective>`; the suffix comes from
the `unit_type` field for the `unit` basis and is fixed otherwise. -/
def price_basis_display (price_calc_objective : String)
    (product : List (String × JVal)) : Option (JVal × String) :=
  if price_calc_objective ≠ "none" then
    match lookupKey product ("price_per_" ++ price_calc_objective) with
    | some price_val =>
      let unit_display : String :=
        if price_calc_objective = "unit" ∧ (lookupKey product "unit_type").isSome then
          "/" ++ pyStr ((lookupKey product "unit_type").getD .jnull)
        else if price_calc_objective = "kg" then "/kg"
        else if price_calc_objective = "liter" then "/L"
        else if price_calc_objective = "package" then "/pkg"
        else ""
      some (price_val, unit_display)
    | none => none
  else none

/-! ### URL curation (lines 160–189 and 358–363)

`st.session_state.discovered_urls` is the ordered URL list; the per-position
checkbox state lives in `st.session_state` under the keys `url_{i}` —
modelled as an association list from position to flag, most recent entry
first (a dict write shadows the old value).  A position with no entry reads
as `True` (`st.session_state.get(f"url_{i}", True)`).

The review section (lines 160–179) runs on every script rerun while URLs
are displayed: it renders one Include checkbox per position and then
REMOVES every URL whose checkbox read false from `discovered_urls`
(lines 176–179), while the position-keyed session flags stay behind.  Any
widget interaction — unchecking a box, clicking a button — triggers such a
rerun, so this pass executes between a user action and anything that reads
the store (in particular the `active_urls` computation of lines 358–359,
which the Analyze click reaches only after its own rerun has run the pass
again). -/

structure CurationStore where
  discovered_urls : List String
  url_flags : List (Nat × Bool)
deriving DecidableEq

def flag_lookup (flags : List (Nat × Bool)) (i : Nat) : Bool :=
  match flags.lookup i with
  | some b => b
  | none => true

/-- The Add URL button (lines 183–189): append only when not present. -/
def add_url (s : CurationStore) (new_url : String) : CurationStore :=
  if new_url ∈ s.discovered_urls then s
  else { s with discovered_urls := s.discovered_urls ++ [new_url] }

/-- One execution of the checkbox loop and removal block (lines 164–179).
For each position `i`, `st.checkbox("Include", value=True, key=f"url_{i}")`
returns the session value stored under `url_{i}`; a fresh key is seeded
with the default `true`, which every later read of that key reproduces, so
the seeding needs no separate state (both the checkbox and line 359 read
absent keys as `true`).  The URLs whose checkbox read false are collected
in order and removed from `discovered_urls`, first occurrence each
(`list.remove` guarded by a membership test, i.e. `List.erase`).  The
session flags are NOT touched: the stale position-keyed entries survive
the removal. -/
def checkbox_removal_pass (s : CurationStore) : CurationStore :=
  let urls_to_remove :=
    (s.discovered_urls.enum.filter fun iu => !flag_lookup s.url_flags iu.1).map
      Prod.snd
  { s with discovered_urls := urls_to_remove.foldl List.erase s.discovered_urls }

/-- The spec's `set_included(url, b)` as the program implements it: the
user toggles the Include checkbox of the row displaying `url`, which
writes the session flag for that row's position (`url_{i}`, a fresh write
shadowing the old value), and the interaction itself reruns the script, so
the checkbox/removal pass of lines 164–179 executes before anything else
can observe the store.  A URL not in the list has no rendered checkbox:
no-op. -/
def set_included (s : CurationStore) (url : String) (included : Bool) :
    CurationStore :=
  match s.discovered_urls.findIdx? (fun x => x = url) with
  | some i =>
    checkbox_removal_pass { s with url_flags := (i, included) :: s.url_flags }
  | none => s

/-- Lines 358–359: `[url for i, url in enumerate(st.session_state.discovered_urls)
if st.session_state.get(f"url_{i}", True)]`. -/
def active_urls (s : CurationStore) : List String :=
  (s.discovered_urls.enum.filter fun iu => flag_lookup s.url_flags iu.1).map
    Prod.snd

/-- The active URL list an analysis run actually uses: the Analyze click is
itself a rerun, so the checkbox/removal pass of lines 164–179 executes once
more before lines 358–359 read the store. -/
def active_urls_on_analyze (s : CurationStore) : List String :=
  active_urls (checkbox_removal_pass s)

/-! ### Startup (lines 1–57) -/

/-- One observable effect of running the script top to bottom. -/
inductive Effect where
  | page_config (page_title : String)
  | show_title (text : String)
  | show_markdown (text : String)
  | show_error (text : String)
  | halt
  | make_tabs (names : List String)
  | show_header (text : String)
  | input_widget (label : String)
deriving DecidableEq

def Effect.isHalt : Effect → Bool
  | .halt => true
  | _ => false

def Effect.isRender : Effect → Bool
  | .page_config _ => true
  | .show_title _ => true
  | .show_markdown _ => true
  | .make_tabs _ => true
  | .show_header _ => true
  | _ => false

def Effect.isInput : Effect → Bool
  | .input_widget _ => true
  | _ => false

def Effect.isError : Effect → Bool
  | .show_error _ => true
  | _ => false

/-- The effect trace of script startup (lines 9–57), as a function of
whether `openai_api_key` is present in `st.secrets["config"]`.  The page
config, title and description markdown (lines 9–20) run before the secret
check (lines 23–35); `st.stop()` ends the script, so nothing after line 35
runs when the key is missing.  With the key present, the trace continues
into the tabs and the input widgets (modelled up to the first few widgets of
tab 1; nothing in between accepts input). -/
def startup_script (api_key_in_secrets : Bool) : List Effect :=
  [.page_config "Lithuanian Market Product Analyzer",
   .show_title "🔍 Lithuanian Market Product Analyzer",
   .show_markdown "This application analyzes Lithuanian market products based on a technical specification. It queries the OpenAI API to gather structured product information and evaluates each product."] ++
  if api_key_in_secrets then
    [.make_tabs ["Product Search", "Search History", "About"],
     .show_header "Search for Products",
     .input_widget "Enter the product category or group:",
     .input_widget "Enter the product name:",
     .input_widget "Technical specifications for the product you are looking for:"]
  else
    [.show_error "⚠️ OpenAI API key not found in secrets. Create a .streamlit/secrets.toml file with your OpenAI API key, then restart the application.",
     .halt]

end ProductPriceSearcher

namespace ProductPriceSearcher

/-! ## Helper lemmas -/

/-- The extraction loop accumulates exactly the concatenation of the per-URL
results, in order, regardless of which URLs contribute nothing. -/
theorem run_analysis_loop_eq (svc : String → Except String String)
    (acc : List JVal) (urls : List String) :
    run_analysis_loop svc acc urls
      = acc ++ (urls.map fun u => (analyze_product_prices (svc u)).1).flatten := by
  induction urls generalizing acc with
  | nil => simp [run_analysis_loop]
  | cons u rest ih =>
    simp only [run_analysis_loop, List.map_cons, List.flatten_cons]
    rw [ih]
    by_cases h : (analyze_product_prices (svc u)).1.isEmpty
    · simp [h, List.isEmpty_iff.mp h]
    · simp [h, List.append_assoc]

/-- The per-response extraction pipeline, for every response text, equals
the spec's step sequence written with named steps. -/
theorem analyze_ok_eq_spec (t : String) :
    (analyze_product_prices (.ok t)).1 = spec_extract t := by
  simp only [analyze_product_prices, parse_products_attempt, spec_extract,
    select_products]
  cases hs : json_search t with
  | none =>
    simp only [hs]
    cases hl : json_loads t with
    | error e => simp
    | ok v =>
      cases v <;> simp
      case jobj fs =>
        cases hk : lookupKey fs "products" with
        | none => simp
        | some w => cases w <;> simp
  | some sub =>
    simp only [hs]
    cases hl : json_loads sub with
    | error e => simp
    | ok v =>
      cases v <;> simp
      case jobj fs =>
        cases hk : lookupKey fs "products" with
        | none => simp
        | some w => cases w <;> simp

/-- `parse_products_attempt` re-expressed through `decode_response` and
`select_products`, so that theorems can split on the decode outcome. -/
theorem parse_products_attempt_eq (t : String) :
    parse_products_attempt t
      = match decode_response t with
        | .error e => .error e
        | .ok v => .ok (match select_products v with
                        | .jarr ps => ps
                        | _ => []) := by
  simp only [parse_products_attempt, decode_response, select_products]
  cases hs : json_search t with
  | none =>
    simp only [hs]
    cases hl : json_loads t with
    | error e => simp
    | ok v =>
      cases v <;> simp
      case jobj fs =>
        cases hk : lookupKey fs "products" with
        | none => simp
        | some w => cases w <;> simp
  | some sub =>
    simp only [hs]
    cases hl : json_loads sub with
    | error e => simp
    | ok v =>
      cases v <;> simp
      case jobj fs =>
        cases hk : lookupKey fs "products" with
        | none => simp
        | some w => cases w <;> simp

/-- The history after a run sequence is the initial log followed by one
entry per non-empty-aggregate run, in run order. -/
theorem run_history_eq (init : List HistoryEntry) (runs : List RunData) :
    run_history init runs
      = init ++ (runs.filter fun r => !r.all_products.isEmpty).map entryOf := by
  induction runs generalizing init with
  | nil => simp [run_history]
  | cons r rs ih =>
    simp only [run_history, record_run]
    by_cases h : r.all_products.isEmpty
    · simp [h, ih]
    · simp [h, ih]

/-- A discovered URL whose per-position flag was never written is active. -/
theorem mem_active_of_unset (s : CurationStore) (i : Nat)
    (hi : i < s.discovered_urls.length)
    (hflag : s.url_flags.lookup i = none) :
    s.discovered_urls.get ⟨i, hi⟩ ∈ active_urls s := by
  unfold active_urls
  apply List.mem_map.mpr
  refine ⟨(i, s.discovered_urls.get ⟨i, hi⟩), ?_, rfl⟩
  apply List.mem_filter.mpr
  constructor
  · apply List.mk_mem_enum_iff_getElem?.mpr
    simp [List.getElem?_eq_getElem hi]
  · simp [flag_lookup, hflag]

end ProductPriceSearcher

namespace ProductPriceSearcher

/-! ## Claim theorems -/

/-- C1: `run_analysis` over an ordered list of active URLs invokes
extraction for each URL in order and concatenates the per-URL results into
one flat ordered sequence (URL-list order, then per-URL return order); for
every URL list, a URL whose extraction fails with a transport error (the
`.error` service outcome) contributes zero records and does not abort or
lose the results of the remaining URLs; the functions are total, so no
exception reaches the caller.  The last conjunct is the spec's §8 scenario:
URLs `[A, B]`, A raising a transport error and B returning one record. -/
theorem c1_run_analysis_concat_partial_failure :
    (∀ svc urls, run_analysis svc urls
        = (urls.map fun u => (analyze_product_prices (svc u)).1).flatten)
    ∧ (∀ e, analyze_product_prices (.error e)
        = ([], .errorShown ("API request failed: " ++ e)))
    ∧ run_analysis
        (fun u => if u = "A" then .error "connection reset"
                  else .ok "[\x7b\"product_name\":\"X\"\x7d]") ["A", "B"]
        = [.jobj [("product_name", .jstr "X")]] := by
  refine ⟨fun svc urls => ?_, fun e => rfl, rfl⟩
  simpa using run_analysis_loop_eq svc [] urls

/-- C2: for every response text, the extraction parser follows the spec's
steps exactly — search the text for a substring matching the
array-of-objects or products-object pattern and parse that substring,
otherwise parse the entire text; an object with a `products` key yields
that key's array and an array yields itself (`spec_extract` is the step
sequence written from the spec).  In particular the response text
`{"products": [{"product_name":"Y"}]}` yields exactly one record with
product_name = "Y". -/
theorem c2_extraction_parsing_policy :
    (∀ t, (analyze_product_prices (.ok t)).1 = spec_extract t)
    ∧ (analyze_product_prices
        (.ok "\x7b\"products\": [\x7b\"product_name\":\"Y\"\x7d]\x7d")).1
        = [.jobj [("product_name", .jstr "Y")]] :=
  ⟨analyze_ok_eq_spec, rfl⟩

/-- C3 counterexample: the response text `5` parses to a final value that is
not an array; the extraction returns the empty sequence but surfaces NO
warning (the `st.warning` call sits only in the decoding-error handler), so
the claim's "surfaces a non-fatal warning" is false for this input. -/
theorem c3_nonarray_counterexample :
    analyze_product_prices (.ok "5") = ([], .noNotice)
    ∧ (analyze_product_prices (.ok "5")).2.isWarning = false :=
  ⟨rfl, rfl⟩

/-- C3 (amended): for every response text whose parsing yields a final
value that is not an array, or for which a parse step raises a decoding
error (e.g. the text `not json at all`), extract returns an empty sequence
and, being total, never raises; the non-fatal warning is surfaced exactly
on the decoding-error path, while a parsed but non-array final value
returns empty silently. -/
theorem c3_extract_failure_empty_never_raises (t e : String) (v : JVal) :
    (decode_response t = .error e →
      analyze_product_prices (.ok t)
        = ([], .warningShown ("Could not parse products from URL: " ++ e)))
    ∧ (decode_response t = .ok v → isArrVal (select_products v) = false →
      analyze_product_prices (.ok t) = ([], .noNotice))
    ∧ analyze_product_prices (.ok "not json at all")
        = ([], .warningShown ("Could not parse products from URL: "
            ++ "Expecting value")) := by
  refine ⟨fun h => ?_, fun h harr => ?_, rfl⟩
  · simp [analyze_product_prices, parse_products_attempt_eq, h]
  · simp only [analyze_product_prices, parse_products_attempt_eq, h]
    cases hsel : select_products v <;> simp_all [isArrVal]

/-- Witness for C3 at the concrete inputs `5` (non-array final value, no
warning) and `oops` (decoding error, warning). -/
theorem c3_extract_failure_witness :
    analyze_product_prices (.ok "5") = ([], .noNotice)
    ∧ analyze_product_prices (.ok "oops")
        = ([], .warningShown ("Could not parse products from URL: "
            ++ "Expecting value")) :=
  ⟨(c3_extract_failure_empty_never_raises "5" "" (.jint 5)).2.1 rfl rfl,
   (c3_extract_failure_empty_never_raises "oops" "Expecting value" .jnull).1 rfl⟩

/-- C4 counterexample: the response text `[5]` decodes to an array whose
element `5` is returned exactly as parsed — no coercion to the
ProductRecord shape happens, and the returned element is not a record. -/
theorem c4_passthrough_counterexample :
    (analyze_product_prices (.ok "[5]")).1 = [.jint 5]
    ∧ is_record_shape (.jint 5) = false :=
  ⟨rfl, rfl⟩

/-- C4 (amended): the elements of the parsed array are returned exactly as
decoded, without coercion; object elements therefore carry exactly the
fields present in the source JSON — absent fields stay unset and are never
defaulted — while non-object elements pass through unchanged.  The spec's
§8 example `[{"product_name":"X","product_price":9.99}]` yields exactly one
record with product_name = "X", product_price = 9.99 (the decimal
999 × 10⁻²), and no other field. -/
theorem c4_extract_passthrough_fields (t : String) (v : JVal) (ps : List JVal) :
    (decode_response t = .ok v → select_products v = .jarr ps →
      (analyze_product_prices (.ok t)).1 = ps)
    ∧ (analyze_product_prices
        (.ok "[\x7b\"product_name\":\"X\",\"product_price\":9.99\x7d]")).1
        = [.jobj [("product_name", .jstr "X"), ("product_price", .jfloat 999 (-2))]]
    ∧ ((analyze_product_prices
        (.ok "[\x7b\"product_name\":\"X\",\"product_price\":9.99\x7d]")).1.map
          fieldKeys)
        = [["product_name", "product_price"]] := by
  refine ⟨fun h hsel => ?_, rfl, rfl⟩
  simp [analyze_product_prices, parse_products_attempt_eq, h, hsel]

/-- Witness for C4 at the concrete response `[5]`. -/
theorem c4_extract_passthrough_witness :
    decode_response "[5]" = .ok (.jarr [.jint 5])
    ∧ select_products (.jarr [.jint 5]) = .jarr [.jint 5]
    ∧ (analyze_product_prices (.ok "[5]")).1 = [.jint 5] :=
  ⟨rfl, rfl,
   (c4_extract_passthrough_fields "[5]" (.jarr [.jint 5]) [.jint 5]).1 rfl rfl⟩

/-- C5: the history log is append-only and records exactly the runs with a
non-empty aggregate: starting from an empty log, the log after any run
sequence is one entry per non-empty run in order, each holding that run's
timestamp, query fields and aggregate; its length is the number of
non-empty runs; with a non-decreasing clock the stored timestamps are
non-decreasing; and any earlier log is a prefix of (hence unaltered by) the
log after further runs. -/
theorem c5_history_append_only (runs : List RunData) (init : List HistoryEntry)
    (hmono : List.Chain' (· ≤ ·) (runs.map RunData.now)) :
    run_history [] runs
      = (runs.filter fun r => !r.all_products.isEmpty).map entryOf
    ∧ (run_history [] runs).length
        = ((runs.filter fun r => !r.all_products.isEmpty)).length
    ∧ List.Chain' (· ≤ ·) ((run_history [] runs).map HistoryEntry.timestamp)
    ∧ init <+: run_history init runs := by
  have h0 := run_history_eq [] runs
  refine ⟨by simpa using h0, ?_, ?_, ?_⟩
  · simp [h0, List.length_map]
  · have hts : (run_history [] runs).map HistoryEntry.timestamp
        = (runs.filter fun r => !r.all_products.isEmpty).map RunData.now := by
      simp [h0, List.map_map]
      intro a _ _
      rfl
    rw [hts]
    exact hmono.sublist ((List.filter_sublist _).map RunData.now)
  · rw [run_history_eq]
    exact List.prefix_append _ _

/-- Witness for C5 at a concrete run sequence (timestamps 3, 4, 6; the
middle run has an empty aggregate and is not recorded). -/
theorem c5_history_append_only_witness :
    List.Chain' (· ≤ ·)
      (([⟨3, "vitamins", "d3", "1000 IU", "unit", [.jint 1]⟩,
         ⟨4, "vitamins", "d3", "1000 IU", "unit", []⟩,
         ⟨6, "vitamins", "d3", "1000 IU", "unit", [.jint 2]⟩] : List RunData).map
        RunData.now)
    ∧ run_history []
        [⟨3, "vitamins", "d3", "1000 IU", "unit", [.jint 1]⟩,
         ⟨4, "vitamins", "d3", "1000 IU", "unit", []⟩,
         ⟨6, "vitamins", "d3", "1000 IU", "unit", [.jint 2]⟩]
        = (([⟨3, "vitamins", "d3", "1000 IU", "unit", [.jint 1]⟩,
             ⟨4, "vitamins", "d3", "1000 IU", "unit", []⟩,
             ⟨6, "vitamins", "d3", "1000 IU", "unit", [.jint 2]⟩] : List RunData).filter
            fun r => !r.all_products.isEmpty).map entryOf
    ∧ [⟨0, "c", "p", "t", "none", [.jnull]⟩] <+:
        run_history [⟨0, "c", "p", "t", "none", [.jnull]⟩]
          [⟨3, "vitamins", "d3", "1000 IU", "unit", [.jint 1]⟩,
           ⟨4, "vitamins", "d3", "1000 IU", "unit", []⟩,
           ⟨6, "vitamins", "d3", "1000 IU", "unit", [.jint 2]⟩] :=
  ⟨by simp [List.chain'_cons],
   (c5_history_append_only
      [⟨3, "vitamins", "d3", "1000 IU", "unit", [.jint 1]⟩,
       ⟨4, "vitamins", "d3", "1000 IU", "unit", []⟩,
       ⟨6, "vitamins", "d3", "1000 IU", "unit", [.jint 2]⟩]
      [] (by simp [List.chain'_cons])).1,
   (c5_history_append_only
      [⟨3, "vitamins", "d3", "1000 IU", "unit", [.jint 1]⟩,
       ⟨4, "vitamins", "d3", "1000 IU", "unit", []⟩,
       ⟨6, "vitamins", "d3", "1000 IU", "unit", [.jint 2]⟩]
      [⟨0, "c", "p", "t", "none", [.jnull]⟩] (by simp [List.chain'_cons])).2.2.2⟩

end ProductPriceSearcher

namespace ProductPriceSearcher

/-- C6 counterexample: a service response of 21 URLs containing a duplicate
is returned exactly as received — 21 entries, duplicate preserved — so the
returned list is neither deduplicated nor bounded by 20. -/
theorem c6_discovery_counterexample :
    (discover_product_urls
      (.ok ⟨"https://a.lt" :: "https://a.lt" :: List.replicate 19 "https://b.lt"⟩)).1.length
      = 21
    ∧ ¬ (discover_product_urls
      (.ok ⟨"https://a.lt" :: "https://a.lt" :: List.replicate 19 "https://b.lt"⟩)).1.Nodup :=
  ⟨rfl, by decide⟩

/-- C6 (amended): for every query, the URL Discovery Client returns the
service-parsed URL list exactly as received — the ≤ 20 bound and the
deduplication are requested of the model in the prompt but not enforced by
the client — and on any transport, authentication or schema-validation
failure (a raised exception) it returns an empty list instead of raising. -/
theorem c6_discovery_passthrough :
    (∀ r, (discover_product_urls (.ok r)).1 = r.urls)
    ∧ (∀ e, discover_product_urls (.error e)
        = ([], .errorShown ("Error discovering URLs: " ++ e))) :=
  ⟨fun _ => rfl, fun _ => rfl⟩

/-- C7: the price-basis display derivation is a pure function of
(price_basis, record): with basis `none` no per-basis price is shown
regardless of record contents; otherwise the field read is
`price_per_<basis>` (nothing is shown when it is absent); the suffix is
`/kg`, `/L`, `/pkg` for the fixed bases — for every record — and
`/<unit label>` (the record's `unit_type` field) for basis `unit`. -/
theorem c7_price_basis_display (basis : String)
    (product : List (String × JVal)) (v : JVal) (u : String) :
    price_basis_display "none" product = none
    ∧ (basis ≠ "none" → lookupKey product ("price_per_" ++ basis) = none →
        price_basis_display basis product = none)
    ∧ (lookupKey product "price_per_kg" = some v →
        price_basis_display "kg" product = some (v, "/kg"))
    ∧ (lookupKey product "price_per_liter" = some v →
        price_basis_display "liter" product = some (v, "/L"))
    ∧ (lookupKey product "price_per_package" = some v →
        price_basis_display "package" product = some (v, "/pkg"))
    ∧ (lookupKey product "price_per_unit" = some v →
       lookupKey product "unit_type" = some (.jstr u) →
        price_basis_display "unit" product = some (v, "/" ++ u)) := by
  refine ⟨?_, fun hb hk => ?_, fun hk => ?_, fun hk => ?_, fun hk => ?_,
    fun hk hu => ?_⟩
  · simp [price_basis_display]
  · simp [price_basis_display, hb, hk]
  · simp [price_basis_display, hk]
  · simp [price_basis_display, hk]
  · simp [price_basis_display, hk]
  · simp [price_basis_display, hk, hu, pyStr]

/-- Witness for C7 at a concrete record carrying price_per_unit = 0.5,
unit_type = "pill" and price_per_kg = 4. -/
theorem c7_price_basis_display_witness :
    price_basis_display "none"
      [("price_per_unit", .jfloat 5 (-1)), ("unit_type", .jstr "pill"),
       ("price_per_kg", .jint 4)] = none
    ∧ price_basis_display "kg"
      [("price_per_unit", .jfloat 5 (-1)), ("unit_type", .jstr "pill"),
       ("price_per_kg", .jint 4)] = some (.jint 4, "/kg")
    ∧ price_basis_display "unit"
      [("price_per_unit", .jfloat 5 (-1)), ("unit_type", .jstr "pill"),
       ("price_per_kg", .jint 4)] = some (.jfloat 5 (-1), "/" ++ "pill")
    ∧ price_basis_display "liter"
      [("price_per_unit", .jfloat 5 (-1)), ("unit_type", .jstr "pill"),
       ("price_per_kg", .jint 4)] = none :=
  ⟨(c7_price_basis_display "liter"
      [("price_per_unit", .jfloat 5 (-1)), ("unit_type", .jstr "pill"),
       ("price_per_kg", .jint 4)] (.jint 4) "pill").1,
   (c7_price_basis_display "liter"
      [("price_per_unit", .jfloat 5 (-1)), ("unit_type", .jstr "pill"),
       ("price_per_kg", .jint 4)] (.jint 4) "pill").2.2.1 rfl,
   (c7_price_basis_display "liter"
      [("price_per_unit", .jfloat 5 (-1)), ("unit_type", .jstr "pill"),
       ("price_per_kg", .jint 4)] (.jfloat 5 (-1)) "pill").2.2.2.2.2 rfl rfl,
   (c7_price_basis_display "liter"
      [("price_per_unit", .jfloat 5 (-1)), ("unit_type", .jstr "pill"),
       ("price_per_kg", .jint 4)] (.jint 4) "pill").2.1 (by decide) rfl⟩

/-- C8 (code bug): evaluation of the code at the failing input, the store
`["https://x.lt", "https://y.lt", "https://z.lt"]` with every URL included.
The add half behaves as the claim says (adding an existing URL twice leaves
exactly one entry).  But `set_included("https://y.lt", false)` — the user
unchecks row 1 and the rerun's removal block (lines 176–179) runs — leaves
the store `(["https://x.lt", "https://z.lt"], url_1 = false)`: y is deleted
from the list while its position flag persists, "https://z.lt" shifts into
position 1 and inherits the stale flag, so `active_urls` is
`["https://x.lt"]` rather than the `["https://x.lt", "https://z.lt"]` the
claim requires — a URL distinct from the unchecked one has been dropped —
and the Analyze click's own rerun even deletes z from the list before the
run.  The final conjunct shows the same operation on the LAST URL does give
the claimed result, underlining that the mid-position loss is the stale
position-keyed flag at work, not a designed behaviour: the code's per-row
Include checkboxes and its own comments (`Keep URL if checked`, `Remove
unchecked URLs`) intend exactly the claimed per-URL semantics. -/
theorem c8_stale_flag_code_bug :
    add_url (add_url ⟨["https://x.lt", "https://z.lt"], []⟩ "https://y.lt")
        "https://y.lt"
      = add_url ⟨["https://x.lt", "https://z.lt"], []⟩ "https://y.lt"
    ∧ (add_url ⟨["https://x.lt", "https://z.lt"], []⟩
        "https://y.lt").discovered_urls.count "https://y.lt" = 1
    ∧ set_included ⟨["https://x.lt", "https://y.lt", "https://z.lt"], []⟩
        "https://y.lt" false
      = ⟨["https://x.lt", "https://z.lt"], [(1, false)]⟩
    ∧ active_urls (set_included ⟨["https://x.lt", "https://y.lt", "https://z.lt"], []⟩
        "https://y.lt" false)
      = ["https://x.lt"]
    ∧ "https://z.lt" ∉ active_urls
        (set_included ⟨["https://x.lt", "https://y.lt", "https://z.lt"], []⟩
          "https://y.lt" false)
    ∧ active_urls_on_analyze
        (set_included ⟨["https://x.lt", "https://y.lt", "https://z.lt"], []⟩
          "https://y.lt" false)
      = ["https://x.lt"]
    ∧ (checkbox_removal_pass
        (set_included ⟨["https://x.lt", "https://y.lt", "https://z.lt"], []⟩
          "https://y.lt" false)).discovered_urls
      = ["https://x.lt"]
    ∧ active_urls_on_analyze
        (set_included ⟨["https://x.lt", "https://y.lt", "https://z.lt"], []⟩
          "https://z.lt" false)
      = ["https://x.lt", "https://y.lt"] := by
  refine ⟨?_, ?_, ?_, ?_, by decide, ?_, ?_, ?_⟩ <;> rfl

/-- C9 counterexample: with the credential absent, render effects — the
page config, the title and the description markdown (lines 9–20) — occur
before the halt, so the startup does NOT halt "before any UI is rendered". -/
theorem c9_startup_render_counterexample :
    ((startup_script false).takeWhile (fun e => !e.isHalt)).any Effect.isRender
      = true
    ∧ (startup_script false).any Effect.isHalt = true :=
  ⟨rfl, rfl⟩

/-- C9 (amended): when the required API credential is absent, startup halts
with a clear remediation message before any user input is accepted — no
input widget precedes the halt, an error message does precede it, the trace
ends at the halt — while with the credential present no halt occurs and the
input widgets are reached.  (The static page config, title and description
are rendered before the credential check.) -/
theorem c9_startup_halts_before_input :
    ((startup_script false).takeWhile (fun e => !e.isHalt)).any Effect.isInput
      = false
    ∧ ((startup_script false).takeWhile (fun e => !e.isHalt)).any Effect.isError
      = true
    ∧ (startup_script false).getLast? = some .halt
    ∧ (startup_script true).any Effect.isHalt = false
    ∧ (startup_script true).any Effect.isInput = true :=
  ⟨rfl, rfl, rfl, rfl, rfl⟩

/-- C10: when an analysis run starts, every URL in the discovered list
whose per-position inclusion flag has never been written reads as included
(`st.session_state.get(f"url_i", True)` defaults to true) and is part of
the active URL set; in particular a manually added URL — appended at a
position that has no checkbox entry yet — is always in the active set. -/
theorem c10_default_included_flag (s : CurationStore) (u : String) (i : Nat)
    (hi : i < s.discovered_urls.length) :
    (s.url_flags.lookup i = none →
      s.discovered_urls.get ⟨i, hi⟩ ∈ active_urls s)
    ∧ (u ∉ s.discovered_urls →
       s.url_flags.lookup s.discovered_urls.length = none →
       u ∈ active_urls (add_url s u)) := by
  constructor
  · exact fun h => mem_active_of_unset s i hi h
  · intro hu hf
    have hlen : s.discovered_urls.length < (add_url s u).discovered_urls.length := by
      simp [add_url, hu]
    have hflag : (add_url s u).url_flags.lookup s.discovered_urls.length = none := by
      simpa [add_url, hu] using hf
    have hmem := mem_active_of_unset (add_url s u) s.discovered_urls.length hlen hflag
    have hget : (add_url s u).discovered_urls.get ⟨s.discovered_urls.length, hlen⟩
        = u := by
      simp [add_url, hu]
    rwa [hget] at hmem

/-- Witness for C10: in a store whose position-0 flag is false and whose
position-1 flag was never written, URL 1 is active by default, and a
freshly added URL is active. -/
theorem c10_default_included_flag_witness :
    "https://b.lt" ∈ active_urls ⟨["https://a.lt", "https://b.lt"], [(0, false)]⟩
    ∧ "https://c.lt" ∈ active_urls
        (add_url ⟨["https://a.lt", "https://b.lt"], [(0, false)]⟩ "https://c.lt")
    ∧ active_urls (add_url ⟨["https://a.lt", "https://b.lt"], [(0, false)]⟩
        "https://c.lt") = ["https://b.lt", "https://c.lt"] :=
  ⟨(c10_default_included_flag ⟨["https://a.lt", "https://b.lt"], [(0, false)]⟩
      "https://c.lt" 1 (by decide)).1 rfl,
   (c10_default_included_flag ⟨["https://a.lt", "https://b.lt"], [(0, false)]⟩
      "https://c.lt" 1 (by decide)).2 (by decide) rfl,
   by decide⟩

end ProductPriceSearcher
